import Mathlib

/-!
Shallow embedding of the honeypot_build repository core
(src/core/forensics.py, src/core/agent.py, src/core/fake_data.py,
src/main.py `handle_honeypot`).

Python floats are modelled by `ℚ`: every confidence value the analyzer can
produce is a sum of a subset of {0.3, 0.4, 0.5, 0.5, 0.4, 0.3} plus the base
0.1, clamped at 1.0, and every such IEEE-double sum compares to the
thresholds 0.4, 0.6, 0.8 exactly as the rational sum does, so the rational
model decides every branch the way the Python code does.

Python `re.findall` on the four fixed patterns of forensics.py is modelled by
dedicated left-to-right scanners (`reFindAll` plus one matcher per pattern);
none of the patterns can match the empty string, so a fuel of the input
length is enough.  Strings are treated as ASCII (the patterns and keyword
lists are all ASCII).
-/

namespace Honeypot

/-- The default Python `str.strip()` whitespace set. -/
def pyWs (c : Char) : Bool :=
  c == ' ' || c == '\t' || c == '\n' || c == '\x0d' || c == '\x0b' || c == '\x0c'

/-- Characters allowed in the local part of the `upi` pattern
`[a-zA-Z0-9.\-_]{2,256}@[a-zA-Z]{2,64}`. -/
def isUpiChar (c : Char) : Bool :=
  c.isAlpha || c.isDigit || c == '.' || c == '-' || c == '_'

/-- ASCII letter (Python `[a-zA-Z]`). -/
def isAsciiAlpha (c : Char) : Bool := c.isAlpha

/-- Python regex word character `\w` (ASCII fragment), used for `\b`. -/
def isWordChar (c : Char) : Bool := c.isAlphanum || c == '_'

/-- Digit or comma, the `[\d,]` class of the `amount` pattern. -/
def isDigitOrComma (c : Char) : Bool := c.isDigit || c == ','

/-- `startsWithCh needle hay` : `needle` is a prefix of `hay`. -/
def startsWithCh : List Char → List Char → Bool
  | [], _ => true
  | _ :: _, [] => false
  | a :: as, b :: bs => a == b && startsWithCh as bs

/-- Case-insensitive prefix test (ASCII lower-casing). -/
def startsWithCI (needle hay : List Char) : Bool :=
  startsWithCh (needle.map Char.toLower) (hay.map Char.toLower)

/-- `hasSubstr hay needle` : the Python test `needle in hay` on strings. -/
def hasSubstrCh (hay needle : List Char) : Bool :=
  match hay with
  | [] => startsWithCh needle []
  | _ :: rest => startsWithCh needle hay || hasSubstrCh rest needle

def hasSubstr (hay needle : String) : Bool :=
  hasSubstrCh hay.toList needle.toList

/-- Python `str.lower()` (ASCII): the inputs here are ASCII text. -/
def lowerAscii (s : String) : String :=
  String.mk (s.toList.map Char.toLower)

/-- Python `str.split(sep)` for a non-empty separator, on character lists:
leftmost non-overlapping occurrences, keeping empty segments.  `acc` is the
segment being accumulated; `fuel` bounds the recursion (`l.length` is
enough since every step drops at least one character). -/
def pySplitAux (sep : List Char) : Nat → List Char → List Char → List (List Char)
  | 0, acc, _ => [acc]
  | _ + 1, acc, [] => [acc]
  | fuel + 1, acc, l@(c :: rest) =>
    if startsWithCh sep l then
      acc :: pySplitAux sep fuel [] (l.drop sep.length)
    else
      pySplitAux sep fuel (acc ++ [c]) rest

def pySplit (s sep : String) : List String :=
  (pySplitAux sep.toList s.length [] s.toList).map String.mk

/-- One step of `re.findall`-style scanning: try the matcher at each
position, on success emit the match and continue after it, on failure
advance one character.  `fuel` bounds the recursion; every matcher below
consumes at least one character, so `fuel = input length` is exact. -/
def reFindAllAux (m : List Char → Option (String × List Char)) :
    Nat → List Char → List String
  | 0, _ => []
  | _ + 1, [] => []
  | fuel + 1, c :: rest =>
    match m (c :: rest) with
    | some (s, rem) => s :: reFindAllAux m fuel rem
    | none => reFindAllAux m fuel rest

def reFindAll (m : List Char → Option (String × List Char)) (s : String) :
    List String :=
  reFindAllAux m s.length s.toList

/-- Matcher for `[a-zA-Z0-9.\-_]{2,256}@[a-zA-Z]{2,64}` at the current
position.  `'@'` is not in the first class, so the greedy run ends exactly
at the `'@'` when a match exists. -/
def upiMatch (l : List Char) : Option (String × List Char) :=
  let run := l.takeWhile isUpiChar
  let n := run.length
  if 2 ≤ n ∧ n ≤ 256 then
    match l.drop n with
    | '@' :: rest2 =>
      let t := rest2.takeWhile isAsciiAlpha
      if 2 ≤ t.length then
        let tk := t.take 64
        some (String.mk (run ++ '@' :: tk), rest2.drop tk.length)
      else none
    | _ => none
  else none

/-- `[6-9]\d{9}` core of the phone pattern. -/
def phoneCore (l : List Char) : Option (String × List Char) :=
  match l with
  | c :: rest =>
    if '6' ≤ c ∧ c ≤ '9' then
      let d := rest.take 9
      if d.length = 9 ∧ d.all Char.isDigit then
        some (String.mk (c :: d), rest.drop 9)
      else none
    else none
  | [] => none

/-- Matcher for `(?:\+91[\-\s]?)?[6-9]\d{9}`: greedy optional prefix with
greedy optional separator, falling back alternative by alternative exactly
as the backtracking engine does. -/
def phoneMatch (l : List Char) : Option (String × List Char) :=
  if startsWithCh ['+', '9', '1'] l then
    let l3 := l.drop 3
    match l3 with
    | sep :: r =>
      if sep == '-' || pyWs sep then
        match phoneCore r with
        | some (s, rem) => some ("+91" ++ String.mk [sep] ++ s, rem)
        | none =>
          match phoneCore l3 with
          | some (s, rem) => some ("+91" ++ s, rem)
          | none => none
      else
        match phoneCore l3 with
        | some (s, rem) => some ("+91" ++ s, rem)
        | none => none
    | [] => none
  else phoneCore l

/-- After a currency marker: `\s*[\d,]+` (greedy, at least one). -/
def amountTail (pre : List Char) (l : List Char) :
    Option (String × List Char) :=
  let ws := l.takeWhile pyWs
  let afterWs := l.drop ws.length
  let digs := afterWs.takeWhile isDigitOrComma
  if 1 ≤ digs.length then
    some (String.mk (pre ++ ws ++ digs), afterWs.drop digs.length)
  else none

/-- Matcher for `(?:rs\.?|inr)\s*[\d,]+` with `re.IGNORECASE`: tries
`rs.`-then-`rs` (greedy optional dot), then `inr`; the matched text keeps
the original casing, as `re.findall` returns it. -/
def amountMatch (l : List Char) : Option (String × List Char) :=
  if startsWithCI ['r', 's'] l then
    let pre2 := l.take 2
    let l2 := l.drop 2
    match l2 with
    | '.' :: l3 =>
      match amountTail (pre2 ++ ['.']) l3 with
      | some res => some res
      | none => amountTail pre2 l2
    | _ => amountTail pre2 l2
  else if startsWithCI ['i', 'n', 'r'] l then
    amountTail (l.take 3) (l.drop 3)
  else none

/-- The credential vocabulary of the `otp_request` pattern. -/
def otpWords : List (List Char) :=
  [['o', 't', 'p'], ['c', 'o', 'd', 'e'], ['p', 'i', 'n'],
   ['p', 'a', 's', 's', 'w', 'o', 'r', 'd']]

/-- Try the alternation `(otp|code|pin|password)` at the current position,
requiring a word boundary after the match (the boundary before is checked
by the caller, which tracks the previous character). -/
def otpAltMatch (l : List Char) : Option (String × List Char) :=
  otpWords.foldr
    (fun w acc =>
      if startsWithCI w l then
        let rem := l.drop w.length
        let boundaryAfter := match rem.head? with
          | none => true
          | some c => !isWordChar c
        if boundaryAfter then some (String.mk (l.take w.length), rem)
        else acc
      else acc)
    none

/-- `\b(otp|code|pin|password)\b` scanning with `re.findall`, which returns
the captured word in its original casing.  `prev` is the character before
the current position, for the leading `\b`. -/
def otpFindAllAux : Nat → Option Char → List Char → List String
  | 0, _, _ => []
  | _ + 1, _, [] => []
  | fuel + 1, prev, c :: rest =>
    let boundary := match prev with
      | none => true
      | some p => !isWordChar p
    if boundary then
      match otpAltMatch (c :: rest) with
      | some (s, rem) =>
        s :: otpFindAllAux fuel (s.toList.getLast?) rem
      | none => otpFindAllAux fuel (some c) rest
    else otpFindAllAux fuel (some c) rest

def otpFindAll (s : String) : List String :=
  otpFindAllAux s.length none s.toList

/-- `any(w in text_lower for w in words)`. -/
def containsAny (textLower : String) (words : List String) : Bool :=
  words.any (fun w => hasSubstr textLower w)

/-- The classification result of `analyze_scam` (forensics.py). -/
structure Forensics where
  upi : List String
  phone : List String
  amount : List String
  otp_request : List String
  tactics : List String
  confidence : ℚ
  deriving Repr, DecidableEq

def urgencyWords : List String :=
  ["urgent", "immediately", "lapse", "block", "24 hours", "expires"]

def greedWords : List String :=
  ["winner", "lottery", "prize", "congratulations", "cashback", "refund", "credit"]

def fearWords : List String :=
  ["police", "cbi", "court", "arrest", "illegal", "suspend", "cyber"]

def finDemandWords : List String :=
  ["pay", "fee", "charges", "deposit", "transfer", "registration", "tax"]

/-- `analyze_scam` from src/core/forensics.py: four regex extractions, five
additive tactic weights over a 0.1 base, a +0.3 technical-verification
bonus for a upi or amount hit, clamped at 1.0. -/
def analyze_scam (text : String) : Forensics :=
  let tl := lowerAscii text
  let upi := reFindAll upiMatch text
  let phone := reFindAll phoneMatch text
  let amount := reFindAll amountMatch text
  let otpReq := otpFindAll text
  let urg := containsAny tl urgencyWords
  let greed := containsAny tl greedWords
  let fear := containsAny tl fearWords
  let fin := containsAny tl finDemandWords
  let cred := !otpReq.isEmpty
  let bonus := !upi.isEmpty || !amount.isEmpty
  let tactics :=
    (if urg then ["Urgency"] else []) ++
    (if greed then ["Greed"] else []) ++
    (if fear then ["Fear"] else []) ++
    (if fin then ["Financial Demand"] else []) ++
    (if cred then ["Credential Harvesting"] else [])
  let confidence : ℚ :=
    0.1 + (if urg then 0.3 else 0) + (if greed then 0.4 else 0) +
    (if fear then 0.5 else 0) + (if fin then 0.5 else 0) +
    (if cred then 0.4 else 0) + (if bonus then 0.3 else 0)
  { upi := upi, phone := phone, amount := amount, otp_request := otpReq,
    tactics := tactics, confidence := min confidence 1 }

/-- The `SessionState` constants of src/core/agent.py. -/
inductive SessionState where
  | INIT
  | ENGAGING
  | HOOKED
  | TRAPPED
  | STALLING
  | EXIT
  deriving Repr, DecidableEq

open SessionState

/-- The per-session record created by `get_session` (src/core/agent.py).
The persona is modelled by its index in the fixed three-entry catalog of
src/core/personas.py. -/
structure Session where
  state : SessionState
  personaIdx : Fin 3
  messages_count : Nat
  scam_confidence : ℚ
  upi : List String
  bank : List String
  phone : List String
  callback_sent : Bool
  last_action : Option String
  otp_attempts : Nat
  deriving Repr, DecidableEq

/-- The fresh session `get_session` stores for an unseen id. -/
def freshSession (p : Fin 3) : Session :=
  { state := INIT, personaIdx := p, messages_count := 0,
    scam_confidence := 0, upi := [], bank := [], phone := [],
    callback_sent := false, last_action := none, otp_attempts := 0 }

def personaName (p : Fin 3) : String :=
  ["Anitha", "Ramesh", "Susan"].get ⟨p.val, by simp⟩

/-- `has_money_talk` of `update_state`: a monetary-amount entity was
extracted or the "Financial Demand" tactic fired. -/
def hasMoneyTalk (f : Forensics) : Bool :=
  !f.amount.isEmpty || f.tactics.contains "Financial Demand"

/-- `update_state` from src/core/agent.py: mutates `session["state"]` and
returns the new state; modelled as returning the updated session together
with the new state. -/
def update_state (s : Session) (f : Forensics) : Session × SessionState :=
  let newState :=
    if hasMoneyTalk f = true ∧ s.scam_confidence > 0.6 then HOOKED
    else if s.state = INIT ∧ s.scam_confidence > 0.6 then ENGAGING
    else if s.state = ENGAGING ∧ hasMoneyTalk f = true then HOOKED
    else if s.state = HOOKED ∧ s.last_action = some "payment_proof" then TRAPPED
    else if s.state = TRAPPED ∧ s.messages_count > 6 then STALLING
    else s.state
  ({ s with state := newState }, newState)

/-- Explicit random inputs for src/core/fake_data.py:
`random.choice(["500","1000","2000"])` is an index into that list,
`random.choices(uppercase+digits, k=12)` is twelve indices into that
36-character alphabet, and `random.randint(100000, 999999)` is an offset
into the inclusive range. -/
structure Rng where
  payChoice : Fin 3
  tid : Fin 12 → Fin 36
  otpOff : Fin 900000

/-- `string.ascii_uppercase + string.digits`. -/
def tidAlphabet : List Char :=
  "ABCDEFGHIJKLMNOPQRSTUVWXYZ0123456789".toList

/-- Matcher for `\d{3,5}`: greedy up to five digits, at least three. -/
def digits35Match (l : List Char) : Option (String × List Char) :=
  let run := l.takeWhile Char.isDigit
  if 3 ≤ run.length then
    let tk := run.take 5
    some (String.mk tk, l.drop tk.length)
  else none

/-- The 12-character transaction reference `tid` of `generate_fake_data`. -/
def tidString (rng : Rng) : String :=
  String.mk ((List.finRange 12).map
    (fun i => tidAlphabet.get (Fin.cast (by decide) (rng.tid i))))

/-- The claimed amount of the `payment_proof` branch: first `\d{3,5}` match
of the context text, else the random choice from the fixed candidate set. -/
def paymentAmount (contextText : String) (rng : Rng) : String :=
  match reFindAll digits35Match contextText with
  | a :: _ => a
  | [] => ["500", "1000", "2000"].get ⟨rng.payChoice.val, by simp⟩

/-- `generate_fake_data` from src/core/fake_data.py. -/
def generate_fake_data (contextText : String) (dataType : String)
    (rng : Rng) : String :=
  if dataType = "payment_proof" then
    "|| [FWD: SBI Alert] Rs." ++ paymentAmount contextText rng ++
    ".00 debited from a/c XXXXX8932 via UPI Ref " ++ tidString rng ++
    ". If not done by you, call 1800-SBI-FAIL. ||"
  else if dataType = "otp" then
    "|| Is this the code? " ++ toString (100000 + rng.otpOff.val) ++ " ||"
  else if dataType = "battery_low" then
    "|| [System] Battery Low (2%). Please charge device. ||"
  else ""

/-- Python `str.strip()` with no argument. -/
def pyStrip (s : String) : String :=
  String.mk (((s.toList.dropWhile pyWs).reverse.dropWhile pyWs).reverse)

/-- Step 8 of `handle_honeypot`:
`[m.strip() for m in ai_reply.split("||") if m.strip()]`. -/
def formatMessages (reply : String) : List String :=
  ((pySplit reply "||").map pyStrip).filter (fun m => m ≠ "")

def scamTriggerWords : List String := ["pay", "send", "transfer", "deposit", "scan"]

def otpTriggerWords : List String := ["otp", "code", "pin", "password"]

/-- The callback payload assembled in step 9 of `handle_honeypot`
(`list(set(...))` is modelled as `List.dedup`, which also keeps one copy of
each element; the Python set iteration order is unspecified, so only the
deduplicated membership is meaningful). -/
structure CallbackPayload where
  sessionId : String
  scamDetected : Bool
  totalMessagesExchanged : Nat
  upiIds : List String
  tactics : List String
  confidenceScore : ℚ
  agentNotes : String
  deriving Repr, DecidableEq

def stateStr : SessionState → String
  | INIT => "INIT"
  | ENGAGING => "ENGAGING"
  | HOOKED => "HOOKED"
  | TRAPPED => "TRAPPED"
  | STALLING => "STALLING"
  | EXIT => "EXIT"

/-- What one call of the `/honeypot` handler produces: the mutated session,
the JSON response fields the claims talk about, whether the generative
backend was reached, and the scoreboard callback if one was scheduled. -/
structure HpResult where
  session : Session
  status : String
  scamDetected : Bool
  agentMessages : List String
  aiReply : String
  respUpiIds : List String
  respTactics : List String
  backendCalled : Bool
  callback : Option CallbackPayload
  deriving Repr, DecidableEq

/-- Session after steps 2-3 of `handle_honeypot`: message counter bump,
max-update of `scam_confidence` with the score of the new classification, and
extension of the upi accumulator (the only category main.py extends). -/
def hpSession2 (s : Session) (text : String) : Session :=
  let f := analyze_scam text
  { s with messages_count := s.messages_count + 1,
           scam_confidence := max s.scam_confidence f.confidence,
           upi := s.upi ++ f.upi }

/-- Session and new state after step 4 (`update_state`). -/
def hpAfterState (s : Session) (text : String) : Session × SessionState :=
  update_state (hpSession2 s text) (analyze_scam text)

/-- The early return of step 5 (the gatekeeper): non-scammers get a fixed
two-message brush-off; the generative backend, the injection step and the
callback step are never reached. -/
def hpIgnored (s3 : Session) : HpResult :=
  { session := s3, status := "ignored", scamDetected := false,
    agentMessages := ["Who is this?", "I think you have the wrong number."],
    aiReply := "", respUpiIds := [], respTactics := [],
    backendCalled := false, callback := none }

/-- The final reply of step 6: the fixed literal fallback when every model in
the failover loop failed (`ai_reply` stayed empty), else the backend text. -/
def hpAiReply0 (genReply : String) : String :=
  if genReply = "" then "Network bad... || Hello? Can you hear me?" else genReply

/-- Step 7, the active-deception injection: the fake-payment branch (state
HOOKED plus a scam-trigger word) takes priority, the fake-OTP branch is its
`elif` (credential word, and `messages_count > 2`); returns the possibly
extended reply and the possibly mutated session. -/
def hpInject (s3 : Session) (newState : SessionState) (text aiReply0 : String)
    (rng : Rng) : String × Session :=
  if newState = HOOKED ∧ containsAny (lowerAscii text) scamTriggerWords = true then
    (aiReply0 ++ " " ++ generate_fake_data text "payment_proof" rng,
     { s3 with last_action := some "payment_proof" })
  else if containsAny (lowerAscii text) otpTriggerWords = true then
    if s3.messages_count > 2 then
      (aiReply0 ++ " " ++ generate_fake_data text "otp" rng,
       { s3 with otp_attempts := s3.otp_attempts + 1,
                 last_action := some "fake_otp" })
    else (aiReply0, s3)
  else (aiReply0, s3)

/-- The callback guard of step 9. -/
def hpShouldCallback (s4 : Session) (newState : SessionState) : Prop :=
  s4.scam_confidence > 0.8 ∧ s4.callback_sent = false ∧
    (newState = TRAPPED ∨ s4.messages_count > 5)

instance (s4 : Session) (newState : SessionState) :
    Decidable (hpShouldCallback s4 newState) := by
  unfold hpShouldCallback; infer_instance

/-- The callback payload of step 9. -/
def hpPayload (sessionId : String) (s4 : Session) (newState : SessionState)
    (f : Forensics) : CallbackPayload :=
  { sessionId := sessionId, scamDetected := true,
    totalMessagesExchanged := s4.messages_count,
    upiIds := s4.upi.dedup, tactics := f.tactics,
    confidenceScore := s4.scam_confidence,
    agentNotes := "Persona " ++ personaName s4.personaIdx ++
      " engaged. Final State: " ++ stateStr newState ++
      ". Fake Data Injected: " ++
      (if s4.last_action = some "payment_proof" then "True" else "False") }

/-- Steps 6-10 of `handle_honeypot` (the branch past the gatekeeper):
generation fallback, deception injection, reply formatting, conditional
callback, and the success response. -/
def hpSuccess (sessionId : String) (s3 : Session) (newState : SessionState)
    (text genReply : String) (rng : Rng) (f : Forensics) : HpResult :=
  let inj := hpInject s3 newState text (hpAiReply0 genReply) rng
  let s5 := if hpShouldCallback inj.2 newState
            then { inj.2 with callback_sent := true } else inj.2
  { session := s5, status := "success", scamDetected := true,
    agentMessages := formatMessages inj.1, aiReply := inj.1,
    respUpiIds := inj.2.upi.dedup, respTactics := f.tactics,
    backendCalled := true,
    callback := if hpShouldCallback inj.2 newState
                then some (hpPayload sessionId inj.2 newState f) else none }

/-- The core of the `/honeypot` endpoint (src/main.py `handle_honeypot`),
after the API-key check, assembled from the stage functions above in the
order of the source.  The generative backend is opaque: `genReply` is the text
the model-failover loop produced (`""` when every model failed), and `rng`
carries the random draws of `generate_fake_data`. -/
def handle_honeypot (sessionId : String) (s : Session) (text : String)
    (genReply : String) (rng : Rng) : HpResult :=
  if (hpAfterState s text).1.scam_confidence < 0.4 then
    hpIgnored (hpAfterState s text).1
  else
    hpSuccess sessionId (hpAfterState s text).1 (hpAfterState s text).2
      text genReply rng (analyze_scam text)

/-- The money-demand signal as rule 1 of spec §4.3 words it: a
monetary-amount entity was extracted or the Financial-Demand tactic fired. -/
def moneyDemandSignal (f : Forensics) : Prop :=
  f.amount ≠ [] ∨ "Financial Demand" ∈ f.tactics

instance (f : Forensics) : Decidable (moneyDemandSignal f) := by
  unfold moneyDemandSignal; infer_instance

/-- The transition policy of spec §4.3, written out as its ordered decision
list (first matching rule wins, fall-through keeps the state); compared
against `update_state` for the refinement claim. -/
def advanceSpec (s : Session) (f : Forensics) : SessionState :=
  if moneyDemandSignal f ∧ s.scam_confidence > 0.6 then HOOKED
  else if s.state = INIT ∧ s.scam_confidence > 0.6 then ENGAGING
  else if s.state = ENGAGING ∧ moneyDemandSignal f then HOOKED
  else if s.state = HOOKED ∧ s.last_action = some "payment_proof" then TRAPPED
  else if s.state = TRAPPED ∧ s.messages_count > 6 then STALLING
  else s.state

/-- The Urgency trigger of `analyze_scam`. -/
def urgencyFires (text : String) : Bool := containsAny (lowerAscii text) urgencyWords

/-- The Greed trigger of `analyze_scam`. -/
def greedFires (text : String) : Bool := containsAny (lowerAscii text) greedWords

/-- The Fear trigger of `analyze_scam`. -/
def fearFires (text : String) : Bool := containsAny (lowerAscii text) fearWords

/-- The Financial-Demand trigger of `analyze_scam`. -/
def finDemandFires (text : String) : Bool := containsAny (lowerAscii text) finDemandWords

/-- The Credential-Harvesting trigger: at least one `otp_request` entity. -/
def credFires (text : String) : Bool := !(otpFindAll text).isEmpty

/-- The technical-verification bonus trigger: a upi or amount entity. -/
def techBonus (text : String) : Bool :=
  !(reFindAll upiMatch text).isEmpty || !(reFindAll amountMatch text).isEmpty

/-- The additive confidence formula of `analyze_scam` as a function of which
triggers fired: base 0.1, the five tactic weights, the +0.3 bonus, clamped
at 1.0. -/
def confFromFlags (u g f d c b : Bool) : ℚ :=
  min (0.1 + (if u then 0.3 else 0) + (if g then 0.4 else 0) +
    (if f then 0.5 else 0) + (if d then 0.5 else 0) +
    (if c then 0.4 else 0) + (if b then 0.3 else 0)) 1

/-- A fixed choice of random draws, for concrete runs. -/
def rng0 : Rng := ⟨0, fun _ => 0, 0⟩

/-- The Scenario-2 message of spec §8. -/
def scenario2Text : String :=
  "URGENT: your account will be blocked, pay Rs.5000 immediately or face legal action"

/-- Arbitrary values for the session fields the transition policy reads,
allowing a reachability statement over every possible interleaving of
caller-side field updates. -/
structure Override where
  conf : ℚ
  msgCount : Nat
  lastAct : Option String

def applyOverride (s : Session) (o : Override) : Session :=
  { s with scam_confidence := o.conf, messages_count := o.msgCount,
           last_action := o.lastAct }

/-- Run a sequence of `update_state` applications from `s`, each preceded by
an arbitrary rewrite of the non-state session fields. -/
def runSteps (s : Session) : List (Forensics × Override) → Session
  | [] => s
  | (f, o) :: rest => runSteps ((update_state (applyOverride s o) f).1) rest

/-! Helper lemmas. -/

lemma hasMoneyTalk_iff (f : Forensics) :
    hasMoneyTalk f = true ↔ moneyDemandSignal f := by
  simp [hasMoneyTalk, moneyDemandSignal]

lemma analyze_confidence_eq (s : String) :
    (analyze_scam s).confidence =
      confFromFlags (urgencyFires s) (greedFires s) (fearFires s)
        (finDemandFires s) (credFires s) (techBonus s) := rfl

lemma iteW_nonneg (a : Bool) (w : ℚ) (hw : 0 ≤ w) :
    0 ≤ if a then w else 0 := by
  cases a
  · simp
  · simpa using hw

lemma iteW_mono {a b : Bool} (h : a = true → b = true) (w : ℚ) (hw : 0 ≤ w) :
    (if a then w else 0) ≤ (if b then w else 0) := by
  cases a
  · exact iteW_nonneg b w hw
  · rw [h rfl]

lemma confFromFlags_nonneg (u g f d c b : Bool) : 0 ≤ confFromFlags u g f d c b := by
  unfold confFromFlags
  apply le_min _ zero_le_one
  repeat apply add_nonneg
  · norm_num
  all_goals apply iteW_nonneg _ _ (by norm_num)

lemma confFromFlags_le_one (u g f d c b : Bool) : confFromFlags u g f d c b ≤ 1 :=
  min_le_right _ _

lemma confFromFlags_mono {u g f d c u' g' f' d' c' : Bool} (b : Bool)
    (hu : u = true → u' = true) (hg : g = true → g' = true)
    (hf : f = true → f' = true) (hd : d = true → d' = true)
    (hc : c = true → c' = true) :
    confFromFlags u g f d c b ≤ confFromFlags u' g' f' d' c' b := by
  have h1 := iteW_mono hu (0.3 : ℚ) (by norm_num)
  have h2 := iteW_mono hg (0.4 : ℚ) (by norm_num)
  have h3 := iteW_mono hf (0.5 : ℚ) (by norm_num)
  have h4 := iteW_mono hd (0.5 : ℚ) (by norm_num)
  have h5 := iteW_mono hc (0.4 : ℚ) (by norm_num)
  unfold confFromFlags
  exact min_le_min
    (add_le_add (add_le_add (add_le_add (add_le_add (add_le_add
      (add_le_add le_rfl h1) h2) h3) h4) h5) le_rfl) le_rfl

/-! The claims. -/

/-- C1: for every session and classification result, `update_state` returns
(and stores) exactly the state given by the ordered spec decision list
`advanceSpec`: fast-track to HOOKED on a money demand with confidence
above 0.6, else INIT→ENGAGING on confidence above 0.6, else
ENGAGING→HOOKED on a money demand, else HOOKED→TRAPPED after a payment
proof, else TRAPPED→STALLING past six messages, else unchanged. -/
theorem c1_update_state_is_spec_decision_list (s : Session) (f : Forensics) :
    update_state s f = ({ s with state := advanceSpec s f }, advanceSpec s f) := by
  unfold update_state advanceSpec
  simp only [hasMoneyTalk_iff]

/-- C2: the analyzer confidence is the additive formula (base 0.1, +0.3
Urgency, +0.4 Greed, +0.5 Fear, +0.5 Financial-Demand, +0.4
Credential-Harvesting — which fires exactly when an `otp_request` entity
was extracted — and +0.3 for a upi-or-amount hit) clamped at 1.0; it lies
in [0,1]; and it is monotone non-decreasing in the set of tactic
categories that fire (the technical bonus held fixed). -/
theorem c2_confidence_formula (s t : String) :
    (analyze_scam s).confidence =
      confFromFlags (urgencyFires s) (greedFires s) (fearFires s)
        (finDemandFires s) (credFires s) (techBonus s)
    ∧ ("Credential Harvesting" ∈ (analyze_scam s).tactics ↔ credFires s = true)
    ∧ 0 ≤ (analyze_scam s).confidence
    ∧ (analyze_scam s).confidence ≤ 1
    ∧ ((urgencyFires s = true → urgencyFires t = true) →
       (greedFires s = true → greedFires t = true) →
       (fearFires s = true → fearFires t = true) →
       (finDemandFires s = true → finDemandFires t = true) →
       (credFires s = true → credFires t = true) →
       techBonus s = techBonus t →
       (analyze_scam s).confidence ≤ (analyze_scam t).confidence) := by
  refine ⟨analyze_confidence_eq s, ?_, ?_, ?_, ?_⟩
  · show "Credential Harvesting" ∈ (analyze_scam s).tactics ↔ credFires s = true
    unfold analyze_scam credFires
    dsimp only
    split_ifs <;> simp_all
  · rw [analyze_confidence_eq]; exact confFromFlags_nonneg _ _ _ _ _ _
  · rw [analyze_confidence_eq]; exact confFromFlags_le_one _ _ _ _ _ _
  · intro hu hg hf hd hc hb
    rw [analyze_confidence_eq, analyze_confidence_eq, hb]
    exact confFromFlags_mono _ hu hg hf hd hc

/-- Witness for C2 at concrete inputs: `"hello"` triggers nothing,
`"urgent"` triggers Urgency, so the monotonicity hypotheses hold. -/
theorem c2_confidence_formula_witness :
    (analyze_scam "hello").confidence ≤ (analyze_scam "urgent").confidence :=
  (c2_confidence_formula "hello" "urgent").2.2.2.2
    (by intro h; rfl) (by intro h; exact absurd h (by decide))
    (by intro h; exact absurd h (by decide)) (by intro h; exact absurd h (by decide))
    (by intro h; exact absurd h (by decide)) (by rfl)

lemma scenario2_confidence : (analyze_scam scenario2Text).confidence = 1 := by
  rw [analyze_confidence_eq]
  show confFromFlags true false false true false true = 1
  unfold confFromFlags
  norm_num

/-- C3, counterexample: on the Scenario-2 message the analyzer tactic
list is exactly `["Urgency", "Financial Demand"]` — "Fear" is NOT among
the tactics (none of the Fear trigger words police/cbi/court/arrest/
illegal/suspend/cyber is a substring of the lower-cased message: "legal
action" does not contain "illegal"), refuting the claim that the tactics
include Fear. -/
theorem c3_scenario2_tactics_no_fear :
    (analyze_scam scenario2Text).tactics = ["Urgency", "Financial Demand"] := rfl

/-- C3, amended: on the Scenario-2 message the tactics are Urgency and
Financial-Demand (not Fear); the confidence clamps to 1.0; and from a
fresh session (state INIT, confidence 0.0) the transition taken with the
max-updated confidence lands directly in HOOKED via the fast-track rule
(money-demand signal present and confidence above 0.6). -/
theorem c3_scenario2_amended :
    (analyze_scam scenario2Text).tactics = ["Urgency", "Financial Demand"]
    ∧ (analyze_scam scenario2Text).confidence = 1
    ∧ hasMoneyTalk (analyze_scam scenario2Text) = true
    ∧ ∀ p : Fin 3,
        (freshSession p).state = INIT
        ∧ (hpSession2 (freshSession p) scenario2Text).scam_confidence > 0.6
        ∧ (hpAfterState (freshSession p) scenario2Text).2 = HOOKED
        ∧ (hpAfterState (freshSession p) scenario2Text).1.state = HOOKED := by
  have hmt : hasMoneyTalk (analyze_scam scenario2Text) = true := rfl
  refine ⟨rfl, scenario2_confidence, hmt, ?_⟩
  intro p
  have hconf : (hpSession2 (freshSession p) scenario2Text).scam_confidence = 1 := by
    simp [hpSession2, freshSession, scenario2_confidence]
  have hstate : (hpAfterState (freshSession p) scenario2Text).2 = HOOKED := by
    unfold hpAfterState update_state
    dsimp only
    rw [if_pos ⟨hmt, by rw [hconf]; norm_num⟩]
  refine ⟨rfl, by rw [hconf]; norm_num, hstate, ?_⟩
  unfold hpAfterState update_state at hstate ⊢
  dsimp only at hstate ⊢
  rw [hstate]

/-- C4: across one handler call, `scam_confidence` is replaced by the max
of its current value and the confidence of the new classification (before the
transition function runs), and no later step assigns it a smaller value,
so it is monotone non-decreasing across the processed messages. -/
theorem c4_scam_confidence_monotone (sid : String) (s : Session)
    (text genReply : String) (rng : Rng) :
    (handle_honeypot sid s text genReply rng).session.scam_confidence =
      max s.scam_confidence (analyze_scam text).confidence
    ∧ s.scam_confidence ≤
        (handle_honeypot sid s text genReply rng).session.scam_confidence := by
  have base :
      (handle_honeypot sid s text genReply rng).session.scam_confidence =
        max s.scam_confidence (analyze_scam text).confidence := by
    unfold handle_honeypot
    split
    · rfl
    · unfold hpSuccess hpInject
      dsimp only
      split_ifs <;> rfl
  exact ⟨base, base ▸ le_max_left _ _⟩

lemma update_state_state_mem (s : Session) (f : Forensics)
    (L : List SessionState)
    (hs : s.state ∈ L) (h1 : HOOKED ∈ L) (h2 : ENGAGING ∈ L)
    (h3 : TRAPPED ∈ L) (h4 : STALLING ∈ L) :
    ((update_state s f).1).state ∈ L := by
  unfold update_state
  dsimp only
  split_ifs <;> assumption

/-- C9: starting from a fresh session (state INIT), no sequence of
transition-function applications — with arbitrary classification results
and arbitrary values of the session fields the policy reads — ever leaves
the five states INIT/ENGAGING/HOOKED/TRAPPED/STALLING; in particular the
defined state EXIT is unreachable. -/
theorem c9_exit_unreachable (p : Fin 3) (steps : List (Forensics × Override)) :
    (runSteps (freshSession p) steps).state ∈
      [INIT, ENGAGING, HOOKED, TRAPPED, STALLING] := by
  have general :
      ∀ (steps : List (Forensics × Override)) (s : Session),
        s.state ∈ [INIT, ENGAGING, HOOKED, TRAPPED, STALLING] →
        (runSteps s steps).state ∈ [INIT, ENGAGING, HOOKED, TRAPPED, STALLING] := by
    intro steps
    induction steps with
    | nil => intro s hs; exact hs
    | cons step rest ih =>
      intro s hs
      obtain ⟨f, o⟩ := step
      exact ih _ (update_state_state_mem _ f _ (by simpa [applyOverride] using hs)
        (by simp) (by simp) (by simp) (by simp))
  exact general steps (freshSession p) (by simp [freshSession])

/-- C6: for every context text (and any random draws),
`generate_fake_data(_, "payment_proof")` is the fixed bank-debit template
wrapped in `||` on both ends, embedding as amount the first `\d{3,5}` match
of the context (or a member of the fixed candidate set when there is
none) and a 12-character transaction reference drawn from the
uppercase-plus-digits alphabet. -/
theorem c6_payment_proof_template (ctx : String) (rng : Rng) :
    ∃ amt tid : String,
      generate_fake_data ctx "payment_proof" rng =
        "|| [FWD: SBI Alert] Rs." ++ amt ++
        ".00 debited from a/c XXXXX8932 via UPI Ref " ++ tid ++
        ". If not done by you, call 1800-SBI-FAIL. ||"
      ∧ ((reFindAll digits35Match ctx).head? = some amt ∨
         (reFindAll digits35Match ctx = [] ∧
          amt ∈ (["500", "1000", "2000"] : List String)))
      ∧ tid.length = 12
      ∧ tid.toList.all (fun c => tidAlphabet.contains c) = true := by
  refine ⟨paymentAmount ctx rng, tidString rng, rfl, ?_, ?_, ?_⟩
  · unfold paymentAmount
    rcases h : reFindAll digits35Match ctx with _ | ⟨a, l⟩
    · right
      exact ⟨rfl, by apply List.get_mem⟩
    · left
      rfl
  · show (List.map _ (List.finRange 12)).length = 12
    simp
  · show (List.map (fun i => tidAlphabet.get (Fin.cast (by decide) (rng.tid i)))
      (List.finRange 12)).all (fun c => tidAlphabet.contains c) = true
    simp only [List.all_eq_true, List.mem_map]
    rintro c ⟨i, _, rfl⟩
    have : tidAlphabet.get (Fin.cast (by decide) (rng.tid i)) ∈ tidAlphabet :=
      List.get_mem _ _ _
    exact List.elem_eq_true_of_mem this

/-- C10: when the max-updated `scam_confidence` is below 0.4 the handler
returns early with status "ignored", `scamDetected` false and the fixed
two-message reply, without reaching the generative backend, the deception
injection or the callback — while the message counter, the confidence, the
upi accumulator and the state have already been updated for this message. -/
theorem c10_gatekeeper (sid : String) (s : Session) (text genReply : String) (rng : Rng)
    (h : (hpAfterState s text).1.scam_confidence < 0.4) :
    (handle_honeypot sid s text genReply rng).status = "ignored"
    ∧ (handle_honeypot sid s text genReply rng).scamDetected = false
    ∧ (handle_honeypot sid s text genReply rng).agentMessages =
        ["Who is this?", "I think you have the wrong number."]
    ∧ (handle_honeypot sid s text genReply rng).backendCalled = false
    ∧ (handle_honeypot sid s text genReply rng).callback = none
    ∧ (handle_honeypot sid s text genReply rng).aiReply = ""
    ∧ (handle_honeypot sid s text genReply rng).session = (hpAfterState s text).1
    ∧ (hpAfterState s text).1.otp_attempts = s.otp_attempts
    ∧ (hpAfterState s text).1.last_action = s.last_action
    ∧ (hpAfterState s text).1.callback_sent = s.callback_sent
    ∧ (hpAfterState s text).1.messages_count = s.messages_count + 1
    ∧ (hpAfterState s text).1.scam_confidence =
        max s.scam_confidence (analyze_scam text).confidence
    ∧ (hpAfterState s text).1.upi = s.upi ++ (analyze_scam text).upi
    ∧ (hpAfterState s text).1.state = (hpAfterState s text).2 := by
  have heq : handle_honeypot sid s text genReply rng = hpIgnored (hpAfterState s text).1 := by
    unfold handle_honeypot
    rw [if_pos h]
  refine ⟨by rw [heq]; rfl, by rw [heq]; rfl, by rw [heq]; rfl, by rw [heq]; rfl,
    by rw [heq]; rfl, by rw [heq]; rfl, by rw [heq]; rfl, rfl, rfl, rfl, rfl, rfl, rfl, ?_⟩
  unfold hpAfterState update_state
  dsimp only

/-- Witness for C10: the message "hello" on a fresh session scores 0.1,
below the 0.4 gate. -/
theorem c10_gatekeeper_witness :
    (handle_honeypot "w10" (freshSession 0) "hello" "x" rng0).status = "ignored" :=
  (c10_gatekeeper "w10" (freshSession 0) "hello" "x" rng0
    (by show max 0 (analyze_scam "hello").confidence < 0.4
        rw [analyze_confidence_eq]
        show max 0 (confFromFlags false false false false false false) < 0.4
        unfold confFromFlags
        norm_num)).1

lemma update_state_fast_track (s : Session) (f : Forensics)
    (hmt : hasMoneyTalk f = true) (hconf : s.scam_confidence > 0.6) :
    update_state s f = ({ s with state := HOOKED }, HOOKED) := by
  unfold update_state
  dsimp only
  rw [if_pos ⟨hmt, hconf⟩]

lemma update_state_stays_INIT (s : Session) (f : Forensics)
    (hmt : hasMoneyTalk f = false) (hconf : ¬ s.scam_confidence > 0.6)
    (hst : s.state = INIT) :
    update_state s f = ({ s with state := INIT }, INIT) := by
  simp [update_state, hmt, hconf, hst]

lemma hpInject_snd_upi (s3 : Session) (ns : SessionState) (text r : String) (rng : Rng) :
    (hpInject s3 ns text r rng).2.upi = s3.upi := by
  unfold hpInject
  split_ifs <;> rfl

lemma hpInject_snd_bank (s3 : Session) (ns : SessionState) (text r : String) (rng : Rng) :
    (hpInject s3 ns text r rng).2.bank = s3.bank := by
  unfold hpInject
  split_ifs <;> rfl

lemma hpInject_snd_phone (s3 : Session) (ns : SessionState) (text r : String) (rng : Rng) :
    (hpInject s3 ns text r rng).2.phone = s3.phone := by
  unfold hpInject
  split_ifs <;> rfl

lemma hpSuccess_session_upi (sid : String) (s3 : Session) (ns : SessionState)
    (text gen : String) (rng : Rng) (f : Forensics) :
    (hpSuccess sid s3 ns text gen rng f).session.upi =
      (hpInject s3 ns text (hpAiReply0 gen) rng).2.upi := by
  unfold hpSuccess
  dsimp only
  split <;> rfl

lemma hpSuccess_session_bank (sid : String) (s3 : Session) (ns : SessionState)
    (text gen : String) (rng : Rng) (f : Forensics) :
    (hpSuccess sid s3 ns text gen rng f).session.bank =
      (hpInject s3 ns text (hpAiReply0 gen) rng).2.bank := by
  unfold hpSuccess
  dsimp only
  split <;> rfl

lemma hpSuccess_session_phone (sid : String) (s3 : Session) (ns : SessionState)
    (text gen : String) (rng : Rng) (f : Forensics) :
    (hpSuccess sid s3 ns text gen rng f).session.phone =
      (hpInject s3 ns text (hpAiReply0 gen) rng).2.phone := by
  unfold hpSuccess
  dsimp only
  split <;> rfl

lemma hpSuccess_session_otp_attempts (sid : String) (s3 : Session) (ns : SessionState)
    (text gen : String) (rng : Rng) (f : Forensics) :
    (hpSuccess sid s3 ns text gen rng f).session.otp_attempts =
      (hpInject s3 ns text (hpAiReply0 gen) rng).2.otp_attempts := by
  unfold hpSuccess
  dsimp only
  split <;> rfl

lemma hpSuccess_session_last_action (sid : String) (s3 : Session) (ns : SessionState)
    (text gen : String) (rng : Rng) (f : Forensics) :
    (hpSuccess sid s3 ns text gen rng f).session.last_action =
      (hpInject s3 ns text (hpAiReply0 gen) rng).2.last_action := by
  unfold hpSuccess
  dsimp only
  split <;> rfl

lemma hpSuccess_aiReply (sid : String) (s3 : Session) (ns : SessionState)
    (text gen : String) (rng : Rng) (f : Forensics) :
    (hpSuccess sid s3 ns text gen rng f).aiReply =
      (hpInject s3 ns text (hpAiReply0 gen) rng).1 := rfl

/-- C8, counterexample: the analyzer extracts the phone entity
"9876543210" from "refund to 9876543210" (a message that passes the 0.4
gate), yet after the handler runs, the session phone accumulator — like
its bank accumulator — is still empty: main.py only ever extends the
"upi" category, refuting the claim that every extracted entity of the
three categories is appended. -/
theorem c8_phone_not_accumulated :
    (analyze_scam "refund to 9876543210").phone = ["9876543210"]
    ∧ (handle_honeypot "c8" (freshSession 0) "refund to 9876543210" "hm" rng0).status
        = "success"
    ∧ (handle_honeypot "c8" (freshSession 0) "refund to 9876543210" "hm" rng0).session.phone
        = []
    ∧ (handle_honeypot "c8" (freshSession 0) "refund to 9876543210" "hm" rng0).session.bank
        = [] := by
  have hconf : (analyze_scam "refund to 9876543210").confidence = 0.5 := by
    rw [analyze_confidence_eq]
    show confFromFlags false true false false false false = 0.5
    unfold confFromFlags
    norm_num
  have hgate :
      ¬ ((hpAfterState (freshSession 0) "refund to 9876543210").1.scam_confidence < 0.4) := by
    show ¬ (max 0 (analyze_scam "refund to 9876543210").confidence < 0.4)
    rw [hconf]
    norm_num
  refine ⟨rfl, ?_, ?_, ?_⟩
  · unfold handle_honeypot
    rw [if_neg hgate]
    rfl
  · unfold handle_honeypot
    rw [if_neg hgate, hpSuccess_session_phone, hpInject_snd_phone]
    rfl
  · unfold handle_honeypot
    rw [if_neg hgate, hpSuccess_session_bank, hpInject_snd_bank]
    rfl

/-- C8, amended: only the "upi" category is accumulated — each call appends
exactly the upi entities of the analyzer to the session upi list, while the
bank and phone accumulators are never written; the upi accumulator is
read back deduplicated (the `upiIds` response field) with no element
lost. -/
theorem c8_only_upi_accumulated (sid : String) (s : Session) (text gen : String) (rng : Rng) :
    (handle_honeypot sid s text gen rng).session.upi = s.upi ++ (analyze_scam text).upi
    ∧ (handle_honeypot sid s text gen rng).session.bank = s.bank
    ∧ (handle_honeypot sid s text gen rng).session.phone = s.phone
    ∧ (handle_honeypot sid s text gen rng).respUpiIds =
        (if (hpAfterState s text).1.scam_confidence < 0.4 then []
         else ((handle_honeypot sid s text gen rng).session.upi).dedup)
    ∧ ((handle_honeypot sid s text gen rng).session.upi).dedup.Nodup
    ∧ ∀ x, x ∈ ((handle_honeypot sid s text gen rng).session.upi).dedup ↔
        x ∈ (handle_honeypot sid s text gen rng).session.upi := by
  refine ⟨?_, ?_, ?_, ?_, List.nodup_dedup _, fun x => List.mem_dedup⟩
  · by_cases h : (hpAfterState s text).1.scam_confidence < 0.4
    · unfold handle_honeypot
      rw [if_pos h]
      rfl
    · unfold handle_honeypot
      rw [if_neg h, hpSuccess_session_upi, hpInject_snd_upi]
      rfl
  · by_cases h : (hpAfterState s text).1.scam_confidence < 0.4
    · unfold handle_honeypot
      rw [if_pos h]
      rfl
    · unfold handle_honeypot
      rw [if_neg h, hpSuccess_session_bank, hpInject_snd_bank]
      rfl
  · by_cases h : (hpAfterState s text).1.scam_confidence < 0.4
    · unfold handle_honeypot
      rw [if_pos h]
      rfl
    · unfold handle_honeypot
      rw [if_neg h, hpSuccess_session_phone, hpInject_snd_phone]
      rfl
  · by_cases h : (hpAfterState s text).1.scam_confidence < 0.4
    · unfold handle_honeypot
      rw [if_pos h, if_pos h]
      rfl
    · unfold handle_honeypot
      rw [if_neg h, if_neg h, hpSuccess_session_upi]
      rfl

/-- C7, counterexample: when the generative backend returns "|| ||" (only
separators and whitespace) for a gate-passing message with no injection
trigger, the resulting `agentMessages` is the empty list — no "Hello?"
placeholder is substituted, refuting the claim that `agentMessages` is
never empty. -/
theorem c7_empty_agent_messages :
    (handle_honeypot "c7" (freshSession 0) "you won the lottery" "|| ||" rng0).status
      = "success"
    ∧ (handle_honeypot "c7" (freshSession 0) "you won the lottery" "|| ||" rng0).agentMessages
      = [] := by
  have hconf : (analyze_scam "you won the lottery").confidence = 0.5 := by
    rw [analyze_confidence_eq]
    show confFromFlags false true false false false false = 0.5
    unfold confFromFlags
    norm_num
  have hgate :
      ¬ ((hpAfterState (freshSession 0) "you won the lottery").1.scam_confidence < 0.4) := by
    show ¬ (max 0 (analyze_scam "you won the lottery").confidence < 0.4)
    rw [hconf]
    norm_num
  have hupd : hpAfterState (freshSession 0) "you won the lottery" =
      ({ hpSession2 (freshSession 0) "you won the lottery" with state := INIT }, INIT) := by
    unfold hpAfterState
    exact update_state_stays_INIT _ _ rfl
      (by show ¬ max 0 (analyze_scam "you won the lottery").confidence > 0.6
          rw [hconf]
          norm_num) rfl
  constructor
  · unfold handle_honeypot
    rw [if_neg hgate]
    rfl
  · unfold handle_honeypot
    rw [if_neg hgate, hupd]
    rfl

/-- C7, amended: past the gatekeeper, `agentMessages` is exactly the final
reply split on "||" with each segment stripped and empty segments dropped
— with no placeholder substitution, so it may be empty; on the ignored
branch it is the fixed two-message brush-off instead. -/
theorem c7_agent_messages_formatting (sid : String) (s : Session)
    (text gen : String) (rng : Rng) :
    (handle_honeypot sid s text gen rng).agentMessages =
      if (hpAfterState s text).1.scam_confidence < 0.4 then
        ["Who is this?", "I think you have the wrong number."]
      else formatMessages (handle_honeypot sid s text gen rng).aiReply := by
  by_cases h : (hpAfterState s text).1.scam_confidence < 0.4
  · rw [if_pos h]
    unfold handle_honeypot
    rw [if_pos h]
    rfl
  · rw [if_neg h]
    unfold handle_honeypot
    rw [if_neg h]
    rfl

/-- C5, counterexample: on "pay the tax fee now, send otp" in a session
that fast-tracks to HOOKED, the credential word "otp" is present and the
post-increment message count is 4 > 2, yet `otp_attempts` is NOT
incremented and `last_action` is "payment_proof": the fake-OTP trigger is
an `elif` of the fake-payment trigger, refuting the claimed independence. -/
theorem c5_otp_excluded_by_payment_branch :
    containsAny (lowerAscii "pay the tax fee now, send otp") otpTriggerWords = true
    ∧ (hpAfterState { freshSession 0 with messages_count := 3, state := ENGAGING }
        "pay the tax fee now, send otp").1.messages_count = 4
    ∧ (handle_honeypot "c5" { freshSession 0 with messages_count := 3, state := ENGAGING }
        "pay the tax fee now, send otp" "ok" rng0).status = "success"
    ∧ (handle_honeypot "c5" { freshSession 0 with messages_count := 3, state := ENGAGING }
        "pay the tax fee now, send otp" "ok" rng0).session.otp_attempts = 0
    ∧ (handle_honeypot "c5" { freshSession 0 with messages_count := 3, state := ENGAGING }
        "pay the tax fee now, send otp" "ok" rng0).session.last_action
        = some "payment_proof" := by
  have hconf : (analyze_scam "pay the tax fee now, send otp").confidence = 1 := by
    rw [analyze_confidence_eq]
    show confFromFlags false false false true true false = 1
    unfold confFromFlags
    norm_num
  have hgate :
      ¬ ((hpAfterState { freshSession 0 with messages_count := 3, state := ENGAGING }
          "pay the tax fee now, send otp").1.scam_confidence < 0.4) := by
    show ¬ (max 0 (analyze_scam "pay the tax fee now, send otp").confidence < 0.4)
    rw [hconf]
    norm_num
  have hupd : hpAfterState { freshSession 0 with messages_count := 3, state := ENGAGING }
      "pay the tax fee now, send otp" =
      ({ hpSession2 { freshSession 0 with messages_count := 3, state := ENGAGING }
          "pay the tax fee now, send otp" with state := HOOKED }, HOOKED) := by
    unfold hpAfterState
    exact update_state_fast_track _ _ rfl
      (by show max 0 (analyze_scam "pay the tax fee now, send otp").confidence > 0.6
          rw [hconf]
          norm_num)
  refine ⟨rfl, rfl, ?_, ?_, ?_⟩
  · unfold handle_honeypot
    rw [if_neg hgate]
    rfl
  · unfold handle_honeypot
    rw [if_neg hgate, hpSuccess_session_otp_attempts, hupd]
    rfl
  · unfold handle_honeypot
    rw [if_neg hgate, hpSuccess_session_last_action, hupd]
    rfl

/-- C5, amended: when the message passes the gate, contains a credential
word, the post-increment message count exceeds 2, AND the fake-payment
branch does not fire (the new state is not HOOKED or no scam-trigger word
is present — the payment branch excludes the OTP branch), the handler
appends the fake one-time-code artifact (a number in the 6-digit range
100000..999999) to the reply, increments `otp_attempts` by exactly 1 and
sets `last_action` to "fake_otp". -/
theorem c5_fake_otp_amended (sid : String) (s : Session) (text gen : String) (rng : Rng)
    (hgate : ¬ ((hpAfterState s text).1.scam_confidence < 0.4))
    (hotp : containsAny (lowerAscii text) otpTriggerWords = true)
    (hcount : (hpAfterState s text).1.messages_count > 2)
    (hpay : ¬ ((hpAfterState s text).2 = HOOKED
              ∧ containsAny (lowerAscii text) scamTriggerWords = true)) :
    (handle_honeypot sid s text gen rng).session.otp_attempts = s.otp_attempts + 1
    ∧ (handle_honeypot sid s text gen rng).session.last_action = some "fake_otp"
    ∧ (handle_honeypot sid s text gen rng).aiReply =
        hpAiReply0 gen ++ " " ++ generate_fake_data text "otp" rng
    ∧ generate_fake_data text "otp" rng =
        "|| Is this the code? " ++ toString (100000 + rng.otpOff.val) ++ " ||"
    ∧ 100000 ≤ 100000 + rng.otpOff.val
    ∧ 100000 + rng.otpOff.val ≤ 999999 := by
  have hinj : hpInject (hpAfterState s text).1 (hpAfterState s text).2 text
      (hpAiReply0 gen) rng =
      (hpAiReply0 gen ++ " " ++ generate_fake_data text "otp" rng,
       { (hpAfterState s text).1 with
           otp_attempts := (hpAfterState s text).1.otp_attempts + 1,
           last_action := some "fake_otp" }) := by
    unfold hpInject
    rw [if_neg hpay, if_pos hotp, if_pos hcount]
  have hb := rng.otpOff.isLt
  refine ⟨?_, ?_, ?_, rfl, by omega, by omega⟩
  · unfold handle_honeypot
    rw [if_neg hgate, hpSuccess_session_otp_attempts, hinj]
    rfl
  · unfold handle_honeypot
    rw [if_neg hgate, hpSuccess_session_last_action, hinj]
  · unfold handle_honeypot
    rw [if_neg hgate, hpSuccess_aiReply, hinj]

/-- Witness for C5 (amended): "send otp 123456 now" on a session with 3
prior messages scores 0.5, stays INIT (so the payment branch cannot
fire), and gets its `otp_attempts` bumped from 0 to 1. -/
theorem c5_fake_otp_amended_witness :
    (handle_honeypot "w5" { freshSession 0 with messages_count := 3 }
      "send otp 123456 now" "ok" rng0).session.otp_attempts =
      ({ freshSession 0 with messages_count := 3 } : Session).otp_attempts + 1 := by
  have hconf : (analyze_scam "send otp 123456 now").confidence = 0.5 := by
    rw [analyze_confidence_eq]
    show confFromFlags false false false false true false = 0.5
    unfold confFromFlags
    norm_num
  have hns : (hpAfterState { freshSession 0 with messages_count := 3 }
      "send otp 123456 now").2 = INIT := by
    unfold hpAfterState
    rw [update_state_stays_INIT
      (hpSession2 { freshSession 0 with messages_count := 3 } "send otp 123456 now")
      (analyze_scam "send otp 123456 now") rfl
      (by show ¬ max 0 (analyze_scam "send otp 123456 now").confidence > 0.6
          rw [hconf]
          norm_num) rfl]
  exact (c5_fake_otp_amended "w5" { freshSession 0 with messages_count := 3 }
    "send otp 123456 now" "ok" rng0
    (by show ¬ (max 0 (analyze_scam "send otp 123456 now").confidence < 0.4)
        rw [hconf]
        norm_num)
    rfl
    (by decide)
    (by intro hx
        rw [hns] at hx
        exact absurd hx.1 (by decide))).1

end Honeypot
